import Mathlib

/-!
Verification development for the mediasoup Rust control-plane client
(worker channel framing and router entity lifecycle).

The definitions below are shallow embeddings of the Rust source:
* `src/rust/src/worker/channels.rs` — netstring framing of the worker channel,
* `src/rust/src/router/consumer.rs` — Consumer lifecycle and notifications,
* `src/rust/src/router/data_producer.rs` — DataProducer lifecycle,
* `src/rust/src/router/data_consumer.rs` — DataConsumer notifications,
* `src/rust/src/router/webrtc_transport.rs` — WebRtcTransport notifications
  and the `TransportListenIps` wrapper.

Bytes are modelled as `Nat` (values < 256 in practice), byte buffers as
`List Nat`.  Handler invocations and channel I/O are modelled as explicit
event traces.
-/

namespace Mediasoup

/-! ## Worker channel framing (`worker/channels.rs`) -/

/-- Constant `NS_PAYLOAD_MAX_LEN` from `channels.rs` line 17:
"netstring length for a 4194304 bytes payload". -/
def NS_PAYLOAD_MAX_LEN : Nat := 4194304

/-- The `ChannelMessage` enum from `channels.rs` lines 19–33.  String payloads
are kept as raw byte lists (the Rust code builds them with
`String::from_utf8_unchecked`, which preserves the bytes). -/
inductive ChannelMessage
  | json (data : List Nat)
  | debug (data : List Nat)
  | warn (data : List Nat)
  | error (data : List Nat)
  | dump (data : List Nat)
  | unknown (command : Nat) (data : List Nat)
deriving DecidableEq, Repr

/-- Translation of `deserialize_message` (`channels.rs` lines 35–50): dispatch
on the command byte; byte values are the ASCII codes of
`{` (123), `D` (68), `W` (87), `E` (69), `X` (88). -/
def deserialize_message (command : Nat) (data : List Nat) : ChannelMessage :=
  if command = 123 then ChannelMessage.json data
  else if command = 68 then ChannelMessage.debug data
  else if command = 87 then ChannelMessage.warn data
  else if command = 69 then ChannelMessage.error data
  else if command = 88 then ChannelMessage.dump data
  else ChannelMessage.unknown command data

/-- Decimal digit bytes of a natural number, most significant first; models
`usize::to_string(...).as_bytes()`. -/
def decimalDigits (n : Nat) : List Nat := (Nat.toDigits 10 n).map Char.toNat

/-- Translation of the writer-loop body of `create_channel_pair`
(`channels.rs` lines 94–99): ASCII decimal length, `:` (58), the message
bytes, `,` (44). -/
def ns_encode (message : List Nat) : List Nat :=
  decimalDigits message.length ++ (58 :: message) ++ [44]

/-- Semantics of `reader.read_until(b':', &mut bytes)`: the bytes consumed
from the input, up to and including the first `:` (58) when present,
otherwise the whole input. -/
def readUntilColon : List Nat → List Nat
  | [] => []
  | b :: rest => if b = 58 then [58] else b :: readUntilColon rest

/-- Whether a byte is an ASCII decimal digit (`0`–`9`, codes 48–57). -/
def isDigitByte (b : Nat) : Bool := decide (48 ≤ b) && decide (b ≤ 57)

/-- Value of a most-significant-first list of ASCII digit bytes. -/
def digitsToNat (l : List Nat) : Nat := l.foldl (fun acc b => acc * 10 + (b - 48)) 0

/-- Semantics of `String::from_utf8_lossy(bytes).parse::<usize>()`: succeeds
exactly on a non-empty all-digit byte sequence. -/
def parseNatBytes (l : List Nat) : Option Nat :=
  if l.isEmpty then none
  else if l.all isDigitByte then some (digitsToNat l) else none

/-- Observable outcome of one pass of the reader loop of
`create_channel_pair`.  `panicked` covers an `unwrap` on a failed length
parse and an out-of-bounds slice; `ioError` is a failed `read_exact`
(premature end of input); `protocolError` is the oversized-frame rejection
the specification requires (the translated code never produces it). -/
inductive ReadOutcome
  | panicked
  | ioError
  | protocolError
  | ok (tag : Nat) (data : List Nat) (consumed : Nat)
deriving DecidableEq, Repr

/-- Translation of one iteration of the reader loop of `create_channel_pair`
(`channels.rs` lines 62–77), starting from the initial buffer state
`let mut bytes = vec![0u8; NS_PAYLOAD_MAX_LEN]`:

* `read_until(b':', &mut bytes)` appends `readUntilColon input` to the
  zero-filled buffer, returning the number of bytes read;
* `bytes.pop()` drops the last buffer element;
* the code then parses `&bytes[..read_bytes]` — the front of the buffer —
  with `.parse::<usize>().unwrap()` (`panicked` on failure);
* `read_exact(&mut bytes[..(length + 1)])` overwrites the buffer front with
  the next `length + 1` input bytes (`panicked` if the slice exceeds the
  buffer, `ioError` if the input is exhausted);
* `deserialize_message(bytes[0], Vec::from(&bytes[1..length]))` yields the
  tag byte and the remaining payload bytes. -/
def ns_read_step (input : List Nat) : ReadOutcome :=
  let taken := readUntilColon input
  let readBytes := taken.length
  let bytes1 := (List.replicate NS_PAYLOAD_MAX_LEN 0 ++ taken).dropLast
  match parseNatBytes (bytes1.take readBytes) with
  | none => ReadOutcome.panicked
  | some length =>
    if bytes1.length < length + 1 then ReadOutcome.panicked
    else
      let rest := input.drop readBytes
      if rest.length < length + 1 then ReadOutcome.ioError
      else
        let bytes2 := rest.take (length + 1) ++ bytes1.drop (length + 1)
        ReadOutcome.ok (bytes2.headD 0) ((bytes2.take length).drop 1) (readBytes + (length + 1))

theorem isDigitByte_zero : isDigitByte 0 = false := by decide

theorem parseNatBytes_zero_cons (l : List Nat) : parseNatBytes (0 :: l) = none := by
  simp [parseNatBytes, isDigitByte]

theorem readUntilColon_ne_nil {input : List Nat} (h : input ≠ []) :
    readUntilColon input ≠ [] := by
  cases input with
  | nil => exact absurd rfl h
  | cons b rest =>
    simp only [readUntilColon]
    split <;> simp

/-- The length slice parsed by the reader loop always starts with a zero byte
of the pre-filled buffer (or is empty), so the parse always fails. -/
theorem ns_parse_slice_none (input : List Nat) :
    parseNatBytes ((((List.replicate NS_PAYLOAD_MAX_LEN 0 ++ readUntilColon input).dropLast).take
      (readUntilColon input).length)) = none := by
  cases hT : readUntilColon input with
  | nil => simp [parseNatBytes]
  | cons t ts =>
    rw [List.dropLast_eq_take, List.take_take]
    have hmin : min (t :: ts).length
        ((List.replicate NS_PAYLOAD_MAX_LEN 0 ++ t :: ts).length - 1) = ts.length + 1 := by
      simp only [List.length_append, List.length_replicate, List.length_cons,
        NS_PAYLOAD_MAX_LEN]
      omega
    rw [hmin]
    have hL : List.replicate NS_PAYLOAD_MAX_LEN 0 ++ t :: ts =
        0 :: (List.replicate 4194303 0 ++ t :: ts) := rfl
    rw [hL, List.take_succ_cons]
    exact parseNatBytes_zero_cons _

/-- Every input makes the reader loop panic: the parsed slice
`&bytes[..read_bytes]` consists of bytes of the zero-initialised buffer, not
of the digits appended by `read_until`. -/
theorem ns_read_step_panicked (input : List Nat) : ns_read_step input = ReadOutcome.panicked := by
  have h := ns_parse_slice_none input
  simp [ns_read_step, h]

/-- C1: the claim states that encoding a payload `P` (`len(P) ≤ 4194304`) as a
netstring and running the link's decode step yields back exactly `P` and
consumes `len(str(len(P))) + 1 + len(P) + 1` bytes.  The encoder side is
correct (first conjunct: `"{}"` encodes to `2:{},`), but the decode step
panics on every input, including this well-formed frame (second conjunct):
the reader parses the zero-initialised front of its buffer instead of the
length digits appended by `read_until`, so `parse::<usize>().unwrap()`
panics.  The code never returns any payload, refuting the round-trip. -/
theorem c1_roundtrip_decode_panics :
    ns_encode [123, 125] = [50, 58, 123, 125, 44] ∧
    ns_read_step (ns_encode [123, 125]) = ReadOutcome.panicked :=
  ⟨rfl, ns_read_step_panicked _⟩

/-- C2: the claim states that a frame whose declared decimal length exceeds
4194304 is rejected with an error result (not a panic) before the payload is
read.  The reader loop of `create_channel_pair` contains no comparison
against `NS_PAYLOAD_MAX_LEN` at all; on the frame header `4194305:` (followed
here by 16 payload bytes) the translated step panics at the length-parse
`unwrap` — the outcome is `panicked`, never `protocolError`. -/
theorem c2_oversized_frame_panics :
    ns_read_step ([52, 49, 57, 52, 51, 48, 53, 58] ++ List.replicate 16 97) =
      ReadOutcome.panicked :=
  ns_read_step_panicked _

/-- C7: deserializing a received frame dispatches exactly on the first payload
byte: `{` (123) yields a JSON message with the remaining bytes, `D` (68),
`W` (87), `E` (69), `X` (88) yield the log message of the corresponding
severity with the remaining bytes, and any other command byte yields the
unrecognized message preserving both the command byte and the data. -/
theorem c7_deserialize_message_dispatch (command : Nat) (data : List Nat) :
    (command = 123 → deserialize_message command data = ChannelMessage.json data) ∧
    (command = 68 → deserialize_message command data = ChannelMessage.debug data) ∧
    (command = 87 → deserialize_message command data = ChannelMessage.warn data) ∧
    (command = 69 → deserialize_message command data = ChannelMessage.error data) ∧
    (command = 88 → deserialize_message command data = ChannelMessage.dump data) ∧
    (command ≠ 123 → command ≠ 68 → command ≠ 87 → command ≠ 69 → command ≠ 88 →
      deserialize_message command data = ChannelMessage.unknown command data) := by
  refine ⟨?_, ?_, ?_, ?_, ?_, ?_⟩
  · rintro rfl; rfl
  · rintro rfl; rfl
  · rintro rfl; rfl
  · rintro rfl; rfl
  · rintro rfl; rfl
  · intro h1 h2 h3 h4 h5
    simp [deserialize_message, h1, h2, h3, h4, h5]

/-- Witness for C7 at concrete inputs: a `{`-tagged payload is a JSON message
with the remaining bytes and an unrecognized command byte (90, `Z`) is passed
through unchanged. -/
theorem c7_deserialize_message_dispatch_witness :
    deserialize_message 123 [104, 105] = ChannelMessage.json [104, 105] ∧
    deserialize_message 90 [1, 2] = ChannelMessage.unknown 90 [1, 2] :=
  ⟨(c7_deserialize_message_dispatch 123 [104, 105]).1 rfl,
   (c7_deserialize_message_dispatch 90 [1, 2]).2.2.2.2.2 (by decide) (by decide) (by decide)
     (by decide) (by decide)⟩

/-! ## Consumer lifecycle (`router/consumer.rs`)

The `Inner` state block of a Consumer is modelled as an explicit record;
handler invocations (`Bag::call` / `BagOnce::call_simple`) and channel I/O
are modelled as events appended to a trace.  A `BagOnce` (the one-shot
handler bags `producer_close`, `transport_close`, `close` of the `Handlers`
struct) empties itself on the first `call_simple`, modelled by a fired flag
per bag. -/

/-- The `ConsumerScore` struct (`consumer.rs` lines 48–58). -/
structure ConsumerScore where
  score : Nat
  producer_score : Nat
  producer_scores : List Nat
deriving DecidableEq, Repr

/-- The `ConsumerLayers` struct (`consumer.rs` lines 38–43). -/
structure ConsumerLayers where
  spatial_layer : Nat
  temporal_layer : Option Nat
deriving DecidableEq, Repr

/-- Mutable state of a Consumer's `Inner` block (`consumer.rs` lines 343–364)
plus the emptiness flags of its three `BagOnce` handler bags. -/
structure ConsumerState where
  paused : Bool
  producer_paused : Bool
  priority : Nat
  score : ConsumerScore
  preferred_layers : Option ConsumerLayers
  current_layers : Option ConsumerLayers
  closed : Bool
  producer_close_fired : Bool
  transport_close_fired : Bool
  close_fired : Bool
deriving DecidableEq, Repr

/-- Observable actions of Consumer code: handler-bag invocations and
channel/resource operations. -/
inductive ConsumerEvent
  | firePause
  | fireResume
  | fireProducerPause
  | fireProducerResume
  | fireScore (score : ConsumerScore)
  | fireLayersChange (layers : Option ConsumerLayers)
  | fireTrace (data : Nat)
  | fireProducerClose
  | fireTransportClose
  | fireClose
  | requestClose
  | logCloseError
  | releaseTransport
  | requestPause
deriving DecidableEq, Repr

/-- State of a Consumer right after `Consumer::new` (`consumer.rs` lines
554–574): `priority` is 1, `current_layers` is `None`, the closed flag is
fresh and no one-shot bag has fired. -/
def consumerNew (paused producer_paused : Bool) (score : ConsumerScore)
    (preferred_layers : Option ConsumerLayers) : ConsumerState where
  paused := paused
  producer_paused := producer_paused
  priority := 1
  score := score
  preferred_layers := preferred_layers
  current_layers := none
  closed := false
  producer_close_fired := false
  transport_close_fired := false
  close_fired := false

/-- `handlers.producer_close.call_simple()`: fires the bag's handlers exactly
once (a `BagOnce` removes its handlers when called). -/
def callProducerCloseOnce (s : ConsumerState) : ConsumerState × List ConsumerEvent :=
  if s.producer_close_fired then (s, [])
  else ({ s with producer_close_fired := true }, [ConsumerEvent.fireProducerClose])

/-- `handlers.transport_close.call_simple()` for the transport-close bag. -/
def callTransportCloseOnce (s : ConsumerState) : ConsumerState × List ConsumerEvent :=
  if s.transport_close_fired then (s, [])
  else ({ s with transport_close_fired := true }, [ConsumerEvent.fireTransportClose])

/-- `handlers.close.call_simple()` for the close bag. -/
def callCloseOnce (s : ConsumerState) : ConsumerState × List ConsumerEvent :=
  if s.close_fired then (s, [])
  else ({ s with close_fired := true }, [ConsumerEvent.fireClose])

/-- The detached task spawned by `Inner::close` (`consumer.rs` lines
392–400): request `ConsumerCloseRequest` on the channel, log (never
propagate) a failure, then drop the cloned strong `Arc` to the transport. -/
def consumerCloseTask (requestOk : Bool) : List ConsumerEvent :=
  ConsumerEvent.requestClose ::
    ((if requestOk then [] else [ConsumerEvent.logCloseError]) ++
      [ConsumerEvent.releaseTransport])

/-- Translation of `Inner::close` (`consumer.rs` lines 375–403).  The atomic
`closed.swap(true, SeqCst)` is the guard: on an already-closed state nothing
happens.  Otherwise the close handlers fire synchronously, and the function
reports (third component) that the asynchronous close task was spawned. -/
def consumerInnerClose (s : ConsumerState) : ConsumerState × List ConsumerEvent × Bool :=
  if s.closed then (s, [], false)
  else
    let r := callCloseOnce { s with closed := true }
    (r.1, r.2, true)

/-- `Inner::close` with the spawned task's events appended, parameterised by
whether the worker accepted the close request. -/
def consumerInnerCloseFlat (requestOk : Bool) (s : ConsumerState) :
    ConsumerState × List ConsumerEvent :=
  let r := consumerInnerClose s
  (r.1, r.2.1 ++ if r.2.2 then consumerCloseTask requestOk else [])

/-- The `Notification` enum of `consumer.rs` (lines 311–320); trace payloads
are abstracted to an identifier. -/
inductive ConsumerNotification
  | producerClose
  | producerPause
  | producerResume
  | score (score : ConsumerScore)
  | layersChange (layers : Option ConsumerLayers)
  | trace (data : Nat)
deriving DecidableEq, Repr

/-- Translation of the notification subscription handler installed by
`Consumer::new` (`consumer.rs` lines 455–514).  The argument is the result of
`serde_json::from_value::<Notification>`: `none` is the `Err` arm, which only
logs.  `requestOk` parameterises the outcome of the close request possibly
spawned by the `ProducerClose` arm. -/
def consumerHandleNotification (requestOk : Bool) (n : Option ConsumerNotification)
    (s : ConsumerState) : ConsumerState × List ConsumerEvent :=
  match n with
  | none => (s, [])
  | some ConsumerNotification.producerClose =>
    let r1 := callProducerCloseOnce s
    let r2 := consumerInnerCloseFlat requestOk r1.1
    (r2.1, r1.2 ++ r2.2)
  | some ConsumerNotification.producerPause =>
    let wasPaused := s.paused || s.producer_paused
    ({ s with producer_paused := true },
      ConsumerEvent.fireProducerPause :: if wasPaused then [] else [ConsumerEvent.firePause])
  | some ConsumerNotification.producerResume =>
    let wasPaused := s.paused || s.producer_paused
    ({ s with producer_paused := false },
      ConsumerEvent.fireProducerResume ::
        if wasPaused && !s.paused then [ConsumerEvent.fireResume] else [])
  | some (ConsumerNotification.score sc) =>
    ({ s with score := sc }, [ConsumerEvent.fireScore sc])
  | some (ConsumerNotification.layersChange l) =>
    ({ s with current_layers := l }, [ConsumerEvent.fireLayersChange l])
  | some (ConsumerNotification.trace d) => (s, [ConsumerEvent.fireTrace d])

/-- Translation of the `transport.on_close` handler installed by
`Consumer::new` (`consumer.rs` lines 540–553): fire the transport-close bag,
then `inner.close()`. -/
def consumerOnTransportClose (requestOk : Bool) (s : ConsumerState) :
    ConsumerState × List ConsumerEvent :=
  let r1 := callTransportCloseOnce s
  let r2 := consumerInnerCloseFlat requestOk r1.1
  (r2.1, r1.2 ++ r2.2)

/-- Translation of `Consumer::pause` (`consumer.rs` lines 683–702): the
`ConsumerPauseRequest` is issued unconditionally; on success the cached
`paused` flag is set and the pause bag fires if the consumer was not
effectively paused before.  The third component is the `Result` (`true` =
`Ok`). -/
def consumerPause (requestOk : Bool) (s : ConsumerState) :
    ConsumerState × List ConsumerEvent × Bool :=
  if requestOk then
    let wasPaused := s.paused || s.producer_paused
    ({ s with paused := true },
      ConsumerEvent.requestPause :: (if wasPaused then [] else [ConsumerEvent.firePause]),
      true)
  else (s, [ConsumerEvent.requestPause], false)

/-- The `Consumer::closed` getter (`consumer.rs` lines 650–652). -/
def consumerClosed (s : ConsumerState) : Bool := s.closed

/-- The `Consumer::score` getter (`consumer.rs` lines 627–629). -/
def consumerScoreValue (s : ConsumerState) : ConsumerScore := s.score

/-- The ways a Consumer's close sequence can be triggered: a `producerclose`
notification, the parent transport's close handler, or the `Drop` impl of
`Inner` (`consumer.rs` lines 366–372).  A Consumer exposes no public
`close()`; all triggers funnel into `Inner::close`. -/
inductive ConsumerCloseTrigger
  | producerCloseNotify
  | transportCloseNotify
  | dropRef
deriving DecidableEq, Repr

/-- Run one close trigger; the `Bool` is the worker's answer to the close
request the trigger may spawn. -/
def applyConsumerCloseTrigger :
    ConsumerCloseTrigger × Bool → ConsumerState → ConsumerState × List ConsumerEvent
  | (ConsumerCloseTrigger.producerCloseNotify, ok), s =>
    consumerHandleNotification ok (some ConsumerNotification.producerClose) s
  | (ConsumerCloseTrigger.transportCloseNotify, ok), s => consumerOnTransportClose ok s
  | (ConsumerCloseTrigger.dropRef, ok), s => consumerInnerCloseFlat ok s

/-- Run a sequence of close triggers, concatenating their event traces. -/
def runConsumerCloseTriggers :
    List (ConsumerCloseTrigger × Bool) → ConsumerState → ConsumerState × List ConsumerEvent
  | [], s => (s, [])
  | t :: ts, s =>
    let r1 := applyConsumerCloseTrigger t s
    let r2 := runConsumerCloseTriggers ts r1.1
    (r2.1, r1.2 ++ r2.2)

/-- Number of occurrences of an element in a list. -/
def evCount {α : Type} [DecidableEq α] (e : α) : List α → Nat
  | [] => 0
  | x :: xs => (if x = e then 1 else 0) + evCount e xs

theorem evCount_append {α : Type} [DecidableEq α] (e : α) (l1 l2 : List α) :
    evCount e (l1 ++ l2) = evCount e l1 + evCount e l2 := by
  induction l1 with
  | nil => simp [evCount]
  | cons x xs ih => simp [evCount, ih]; omega

/-- One close trigger applied to an open Consumer closes it, fires the
`close` bag once and issues exactly one close request. -/
theorem consumer_trigger_from_open (t : ConsumerCloseTrigger × Bool) (s : ConsumerState)
    (hc : s.closed = false) (hf : s.close_fired = false) :
    (applyConsumerCloseTrigger t s).1.closed = true ∧
    (applyConsumerCloseTrigger t s).1.close_fired = true ∧
    evCount ConsumerEvent.requestClose (applyConsumerCloseTrigger t s).2 = 1 ∧
    evCount ConsumerEvent.fireClose (applyConsumerCloseTrigger t s).2 = 1 := by
  obtain ⟨tr, ok⟩ := t
  cases tr <;> cases ok <;>
    simp only [applyConsumerCloseTrigger, consumerHandleNotification, consumerOnTransportClose,
      consumerInnerCloseFlat, consumerInnerClose, callProducerCloseOnce, callTransportCloseOnce,
      callCloseOnce, consumerCloseTask] <;>
    split_ifs <;>
    simp_all [evCount, evCount_append]

/-- One close trigger applied to an already-closed Consumer keeps it closed
and issues no close request and no `close`-bag firing. -/
theorem consumer_trigger_from_closed (t : ConsumerCloseTrigger × Bool) (s : ConsumerState)
    (hc : s.closed = true) :
    (applyConsumerCloseTrigger t s).1.closed = true ∧
    evCount ConsumerEvent.requestClose (applyConsumerCloseTrigger t s).2 = 0 ∧
    evCount ConsumerEvent.fireClose (applyConsumerCloseTrigger t s).2 = 0 := by
  obtain ⟨tr, ok⟩ := t
  cases tr <;> cases ok <;>
    simp only [applyConsumerCloseTrigger, consumerHandleNotification, consumerOnTransportClose,
      consumerInnerCloseFlat, consumerInnerClose, callProducerCloseOnce, callTransportCloseOnce,
      callCloseOnce, consumerCloseTask] <;>
    split_ifs <;>
    simp_all [evCount, evCount_append]

/-- Any trigger sequence starting from a closed Consumer contributes no close
request and no `close`-bag firing. -/
theorem runConsumer_from_closed (ts : List (ConsumerCloseTrigger × Bool)) (s : ConsumerState)
    (hc : s.closed = true) :
    (runConsumerCloseTriggers ts s).1.closed = true ∧
    evCount ConsumerEvent.requestClose (runConsumerCloseTriggers ts s).2 = 0 ∧
    evCount ConsumerEvent.fireClose (runConsumerCloseTriggers ts s).2 = 0 := by
  induction ts generalizing s with
  | nil => simp [runConsumerCloseTriggers, evCount, hc]
  | cons t ts ih =>
    have h1 := consumer_trigger_from_closed t s hc
    have h2 := ih (applyConsumerCloseTrigger t s).1 h1.1
    simp only [runConsumerCloseTriggers, evCount_append]
    exact ⟨h2.1, by omega, by omega⟩

/-- Any non-empty trigger sequence applied to an open Consumer executes the
close sequence exactly once in total. -/
theorem runConsumer_from_open (ts : List (ConsumerCloseTrigger × Bool)) (s : ConsumerState)
    (hne : ts ≠ []) (hc : s.closed = false) (hf : s.close_fired = false) :
    (runConsumerCloseTriggers ts s).1.closed = true ∧
    evCount ConsumerEvent.requestClose (runConsumerCloseTriggers ts s).2 = 1 ∧
    evCount ConsumerEvent.fireClose (runConsumerCloseTriggers ts s).2 = 1 := by
  cases ts with
  | nil => exact absurd rfl hne
  | cons t ts =>
    have h1 := consumer_trigger_from_open t s hc hf
    have h2 := runConsumer_from_closed ts (applyConsumerCloseTrigger t s).1 h1.1
    simp only [runConsumerCloseTriggers, evCount_append]
    exact ⟨h2.1, by omega, by omega⟩

/-! ## DataProducer lifecycle (`router/data_producer.rs`) -/

/-- Mutable state of a DataProducer's `Inner` block (`data_producer.rs` lines
113–127) plus the emptiness flags of its two `BagOnce` handler bags
(`transport_close`, `close`, lines 107–111). -/
structure DataProducerState where
  closed : Bool
  transport_close_fired : Bool
  close_fired : Bool
deriving DecidableEq, Repr

/-- Observable actions of DataProducer code. -/
inductive DataProducerEvent
  | fireTransportClose
  | fireClose
  | requestClose
  | logCloseError
  | releaseTransport
deriving DecidableEq, Repr

/-- State of a DataProducer right after `DataProducer::new`
(`data_producer.rs` lines 236–250). -/
def dataProducerNew : DataProducerState where
  closed := false
  transport_close_fired := false
  close_fired := false

/-- `handlers.transport_close.call_simple()` on the `BagOnce`. -/
def dpCallTransportCloseOnce (s : DataProducerState) : DataProducerState × List DataProducerEvent :=
  if s.transport_close_fired then (s, [])
  else ({ s with transport_close_fired := true }, [DataProducerEvent.fireTransportClose])

/-- `handlers.close.call_simple()` on the `BagOnce`. -/
def dpCallCloseOnce (s : DataProducerState) : DataProducerState × List DataProducerEvent :=
  if s.close_fired then (s, [])
  else ({ s with close_fired := true }, [DataProducerEvent.fireClose])

/-- The detached task spawned by the DataProducer's `Inner::close`
(`data_producer.rs` lines 154–162): request `DataProducerCloseRequest`, log
(never propagate) a failure, then drop the cloned strong `Arc` to the
transport. -/
def dataProducerCloseTask (requestOk : Bool) : List DataProducerEvent :=
  DataProducerEvent.requestClose ::
    ((if requestOk then [] else [DataProducerEvent.logCloseError]) ++
      [DataProducerEvent.releaseTransport])

/-- Translation of the DataProducer's `Inner::close` (`data_producer.rs`
lines 138–165), guarded by `closed.swap(true, SeqCst)`. -/
def dataProducerInnerClose (s : DataProducerState) :
    DataProducerState × List DataProducerEvent × Bool :=
  if s.closed then (s, [], false)
  else
    let r := dpCallCloseOnce { s with closed := true }
    (r.1, r.2, true)

/-- `Inner::close` with the spawned task's events appended. -/
def dataProducerInnerCloseFlat (requestOk : Bool) (s : DataProducerState) :
    DataProducerState × List DataProducerEvent :=
  let r := dataProducerInnerClose s
  (r.1, r.2.1 ++ if r.2.2 then dataProducerCloseTask requestOk else [])

/-- Translation of the `transport.on_close` handler installed by
`DataProducer::new` (`data_producer.rs` lines 222–235): fire the
transport-close bag, then `inner.close()`. -/
def dataProducerOnTransportClose (requestOk : Bool) (s : DataProducerState) :
    DataProducerState × List DataProducerEvent :=
  let r1 := dpCallTransportCloseOnce s
  let r2 := dataProducerInnerCloseFlat requestOk r1.1
  (r2.1, r1.2 ++ r2.2)

/-- The `DataProducer::closed` getter (`data_producer.rs` lines 291–293). -/
def dataProducerClosed (s : DataProducerState) : Bool := s.closed

/-- The ways a DataProducer's close sequence can be triggered: the
`pub(super) fn close` wrapper (`data_producer.rs` lines 331–333), the parent
transport's close handler, or the `Drop` impl of `Inner` (lines 129–135). -/
inductive DataProducerCloseTrigger
  | explicitClose
  | transportCloseNotify
  | dropRef
deriving DecidableEq, Repr

/-- Run one DataProducer close trigger. -/
def applyDataProducerCloseTrigger :
    DataProducerCloseTrigger × Bool → DataProducerState → DataProducerState × List DataProducerEvent
  | (DataProducerCloseTrigger.explicitClose, ok), s => dataProducerInnerCloseFlat ok s
  | (DataProducerCloseTrigger.transportCloseNotify, ok), s => dataProducerOnTransportClose ok s
  | (DataProducerCloseTrigger.dropRef, ok), s => dataProducerInnerCloseFlat ok s

/-- Run a sequence of DataProducer close triggers. -/
def runDataProducerCloseTriggers :
    List (DataProducerCloseTrigger × Bool) → DataProducerState →
      DataProducerState × List DataProducerEvent
  | [], s => (s, [])
  | t :: ts, s =>
    let r1 := applyDataProducerCloseTrigger t s
    let r2 := runDataProducerCloseTriggers ts r1.1
    (r2.1, r1.2 ++ r2.2)

/-- One close trigger applied to an open DataProducer closes it, fires the
`close` bag once and issues exactly one close request. -/
theorem dataProducer_trigger_from_open (t : DataProducerCloseTrigger × Bool)
    (s : DataProducerState) (hc : s.closed = false) (hf : s.close_fired = false) :
    (applyDataProducerCloseTrigger t s).1.closed = true ∧
    (applyDataProducerCloseTrigger t s).1.close_fired = true ∧
    evCount DataProducerEvent.requestClose (applyDataProducerCloseTrigger t s).2 = 1 ∧
    evCount DataProducerEvent.fireClose (applyDataProducerCloseTrigger t s).2 = 1 := by
  obtain ⟨tr, ok⟩ := t
  cases tr <;> cases ok <;>
    simp only [applyDataProducerCloseTrigger, dataProducerOnTransportClose,
      dataProducerInnerCloseFlat, dataProducerInnerClose, dpCallTransportCloseOnce,
      dpCallCloseOnce, dataProducerCloseTask] <;>
    split_ifs <;>
    simp_all [evCount, evCount_append]

/-- One close trigger applied to an already-closed DataProducer keeps it
closed and issues no close request and no `close`-bag firing. -/
theorem dataProducer_trigger_from_closed (t : DataProducerCloseTrigger × Bool)
    (s : DataProducerState) (hc : s.closed = true) :
    (applyDataProducerCloseTrigger t s).1.closed = true ∧
    evCount DataProducerEvent.requestClose (applyDataProducerCloseTrigger t s).2 = 0 ∧
    evCount DataProducerEvent.fireClose (applyDataProducerCloseTrigger t s).2 = 0 := by
  obtain ⟨tr, ok⟩ := t
  cases tr <;> cases ok <;>
    simp only [applyDataProducerCloseTrigger, dataProducerOnTransportClose,
      dataProducerInnerCloseFlat, dataProducerInnerClose, dpCallTransportCloseOnce,
      dpCallCloseOnce, dataProducerCloseTask] <;>
    split_ifs <;>
    simp_all [evCount, evCount_append]

/-- Any trigger sequence starting from a closed DataProducer contributes no
close request and no `close`-bag firing. -/
theorem runDataProducer_from_closed (ts : List (DataProducerCloseTrigger × Bool))
    (s : DataProducerState) (hc : s.closed = true) :
    (runDataProducerCloseTriggers ts s).1.closed = true ∧
    evCount DataProducerEvent.requestClose (runDataProducerCloseTriggers ts s).2 = 0 ∧
    evCount DataProducerEvent.fireClose (runDataProducerCloseTriggers ts s).2 = 0 := by
  induction ts generalizing s with
  | nil => simp [runDataProducerCloseTriggers, evCount, hc]
  | cons t ts ih =>
    have h1 := dataProducer_trigger_from_closed t s hc
    have h2 := ih (applyDataProducerCloseTrigger t s).1 h1.1
    simp only [runDataProducerCloseTriggers, evCount_append]
    exact ⟨h2.1, by omega, by omega⟩

/-- Any non-empty trigger sequence applied to an open DataProducer executes
the close sequence exactly once in total. -/
theorem runDataProducer_from_open (ts : List (DataProducerCloseTrigger × Bool))
    (s : DataProducerState) (hne : ts ≠ []) (hc : s.closed = false) (hf : s.close_fired = false) :
    (runDataProducerCloseTriggers ts s).1.closed = true ∧
    evCount DataProducerEvent.requestClose (runDataProducerCloseTriggers ts s).2 = 1 ∧
    evCount DataProducerEvent.fireClose (runDataProducerCloseTriggers ts s).2 = 1 := by
  cases ts with
  | nil => exact absurd rfl hne
  | cons t ts =>
    have h1 := dataProducer_trigger_from_open t s hc hf
    have h2 := runDataProducer_from_closed ts (applyDataProducerCloseTrigger t s).1 h1.1
    simp only [runDataProducerCloseTriggers, evCount_append]
    exact ⟨h2.1, by omega, by omega⟩

/-! ## DataConsumer notifications (`router/data_consumer.rs`) -/

/-- The `Notification` enum of `data_consumer.rs` (lines 142–148). -/
inductive DataConsumerNotification
  | dataProducerClose
  | sctpSendBufferFull
  | bufferedAmountLow
deriving DecidableEq, Repr

/-- Observable actions of DataConsumer code (handler bags of lines 150–155
and the close request of the `Drop` impl). -/
inductive DataConsumerEvent
  | fireSctpSendBufferFull
  | fireBufferedAmountLow
  | fireClosed
  | requestClose
deriving DecidableEq, Repr

/-- Translation of the notification subscription handler installed by
`DataConsumer::new` (`data_consumer.rs` lines 227–248).  The argument is the
result of `serde_json::from_value::<Notification>`; `none` is the `Err` arm,
which only logs.  The `DataProducerClose` arm is literally empty in the
source (`// TODO: Handle this in some meaningful way`), and a DataConsumer
has no closed flag, so the handler is a pure event producer. -/
def dataConsumerHandleNotification : Option DataConsumerNotification → List DataConsumerEvent
  | some DataConsumerNotification.dataProducerClose => []
  | some DataConsumerNotification.sctpSendBufferFull => [DataConsumerEvent.fireSctpSendBufferFull]
  | some DataConsumerNotification.bufferedAmountLow => [DataConsumerEvent.fireBufferedAmountLow]
  | none => []

/-- Translation of the DataConsumer's `Drop` impl (`data_consumer.rs` lines
174–199): fire the `closed` bag once, then spawn the close request.  This is
the only place a DataConsumer fires `closed`. -/
def dataConsumerDrop : List DataConsumerEvent :=
  [DataConsumerEvent.fireClosed, DataConsumerEvent.requestClose]

/-! ## WebRtcTransport notifications (`router/webrtc_transport.rs`)

ICE/DTLS/SCTP state enums and tuples live in `data_structures.rs`, outside
the analysed sources; they are abstracted to opaque `Nat` identifiers. -/

/-- Cached mutable fields of `WebRtcTransportData` touched by the
notification handler (`webrtc_transport.rs` lines 516–574). -/
structure WebRtcTransportCache where
  ice_state : Nat
  ice_selected_tuple : Option Nat
  dtls_state : Nat
  dtls_remote_cert : Option Nat
  sctp_state : Option Nat
deriving DecidableEq, Repr

/-- The `Notification` enum of `webrtc_transport.rs` (lines 206–227). -/
inductive WebRtcTransportNotification
  | iceStateChange (ice_state : Nat)
  | iceSelectedTupleChange (ice_selected_tuple : Nat)
  | dtlsStateChange (dtls_state : Nat) (dtls_remote_cert : Option Nat)
  | sctpStateChange (sctp_state : Nat)
  | trace (data : Nat)
deriving DecidableEq, Repr

/-- Handler invocations of the WebRtcTransport notification handler. -/
inductive WebRtcTransportEvent
  | fireIceStateChange (ice_state : Nat)
  | fireIceSelectedTupleChange (ice_selected_tuple : Nat)
  | fireDtlsStateChange (dtls_state : Nat)
  | fireSctpStateChange (sctp_state : Nat)
  | fireTrace (data : Nat)
deriving DecidableEq, Repr

/-- Translation of the notification subscription handler installed by
`WebRtcTransport::new` (`webrtc_transport.rs` lines 512–574).  `none` is the
`serde_json` `Err` arm, which only logs. -/
def webRtcTransportHandleNotification (n : Option WebRtcTransportNotification)
    (s : WebRtcTransportCache) : WebRtcTransportCache × List WebRtcTransportEvent :=
  match n with
  | none => (s, [])
  | some (WebRtcTransportNotification.iceStateChange st) =>
    ({ s with ice_state := st }, [WebRtcTransportEvent.fireIceStateChange st])
  | some (WebRtcTransportNotification.iceSelectedTupleChange tu) =>
    ({ s with ice_selected_tuple := some tu },
      [WebRtcTransportEvent.fireIceSelectedTupleChange tu])
  | some (WebRtcTransportNotification.dtlsStateChange st cert) =>
    let s1 := { s with dtls_state := st }
    let s2 := match cert with
      | some c => { s1 with dtls_remote_cert := some c }
      | none => s1
    (s2, [WebRtcTransportEvent.fireDtlsStateChange st])
  | some (WebRtcTransportNotification.sctpStateChange st) =>
    ({ s with sctp_state := some st }, [WebRtcTransportEvent.fireSctpStateChange st])
  | some (WebRtcTransportNotification.trace d) => (s, [WebRtcTransportEvent.fireTrace d])

/-! ## TransportListenIps (`webrtc_transport.rs` lines 33–70)

`TransportListenIp` is defined in `data_structures.rs`, outside the analysed
sources; its values are abstracted to opaque `Nat` identifiers. -/

/-- The `TransportListenIps` newtype: "Struct that protects an invariant of
having non-empty list of listen IPs". -/
structure TransportListenIps where
  ips : List Nat
deriving DecidableEq, Repr

/-- `TransportListenIps::new` (lines 38–40). -/
def TransportListenIps.new (listen_ip : Nat) : TransportListenIps := ⟨[listen_ip]⟩

/-- `TransportListenIps::add` (lines 42–45): pushes at the end and returns
the modified value. -/
def TransportListenIps.add (s : TransportListenIps) (listen_ip : Nat) : TransportListenIps :=
  ⟨s.ips ++ [listen_ip]⟩

/-- `TryFrom<Vec<TransportListenIp>> for TransportListenIps` (lines 60–70);
`Except.error ()` is `EmptyListError`. -/
def tryFromListenIps (listen_ips : List Nat) : Except Unit TransportListenIps :=
  if listen_ips.isEmpty then Except.error () else Except.ok ⟨listen_ips⟩

/-! ## Claim theorems for the lifecycle models -/

/-- C3: for the entities with an atomic closed flag (Consumer, DataProducer),
any non-empty combination of close triggers (producer-close notification,
transport-close handler, drop — plus the explicit `close()` wrapper for the
DataProducer) executes the close sequence exactly once: the one-shot `close`
handlers fire exactly once, exactly one close request to the worker is
issued, `closed()` returns `true` afterwards, and `Inner::close` on an
already-closed entity is a no-op. -/
theorem c3_close_exactly_once :
    (∀ (ts : List (ConsumerCloseTrigger × Bool)) (s : ConsumerState), ts ≠ [] →
      s.closed = false → s.close_fired = false →
      consumerClosed (runConsumerCloseTriggers ts s).1 = true ∧
      evCount ConsumerEvent.requestClose (runConsumerCloseTriggers ts s).2 = 1 ∧
      evCount ConsumerEvent.fireClose (runConsumerCloseTriggers ts s).2 = 1) ∧
    (∀ (ok : Bool) (s : ConsumerState), s.closed = true →
      consumerInnerCloseFlat ok s = (s, [])) ∧
    (∀ (ts : List (DataProducerCloseTrigger × Bool)) (s : DataProducerState), ts ≠ [] →
      s.closed = false → s.close_fired = false →
      dataProducerClosed (runDataProducerCloseTriggers ts s).1 = true ∧
      evCount DataProducerEvent.requestClose (runDataProducerCloseTriggers ts s).2 = 1 ∧
      evCount DataProducerEvent.fireClose (runDataProducerCloseTriggers ts s).2 = 1) ∧
    (∀ (ok : Bool) (s : DataProducerState), s.closed = true →
      dataProducerInnerCloseFlat ok s = (s, [])) := by
  refine ⟨?_, ?_, ?_, ?_⟩
  · intro ts s hne hc hf
    exact runConsumer_from_open ts s hne hc hf
  · intro ok s hc
    simp [consumerInnerCloseFlat, consumerInnerClose, hc]
  · intro ts s hne hc hf
    exact runDataProducer_from_open ts s hne hc hf
  · intro ok s hc
    simp [dataProducerInnerCloseFlat, dataProducerInnerClose, hc]

/-- Witness for C3: a Consumer hit by a producer-close notification, a
transport close (with a failing close request) and a drop executes the close
sequence once; likewise a DataProducer closed explicitly and then dropped;
and a second `Inner::close` on each closed entity is a no-op. -/
theorem c3_close_exactly_once_witness :
    (consumerClosed (runConsumerCloseTriggers
        [(ConsumerCloseTrigger.producerCloseNotify, true),
         (ConsumerCloseTrigger.transportCloseNotify, false),
         (ConsumerCloseTrigger.dropRef, true)]
        (consumerNew false false ⟨10, 10, [10]⟩ none)).1 = true ∧
      evCount ConsumerEvent.requestClose (runConsumerCloseTriggers
        [(ConsumerCloseTrigger.producerCloseNotify, true),
         (ConsumerCloseTrigger.transportCloseNotify, false),
         (ConsumerCloseTrigger.dropRef, true)]
        (consumerNew false false ⟨10, 10, [10]⟩ none)).2 = 1) ∧
    (dataProducerClosed (runDataProducerCloseTriggers
        [(DataProducerCloseTrigger.explicitClose, true), (DataProducerCloseTrigger.dropRef, true)]
        dataProducerNew).1 = true ∧
      evCount DataProducerEvent.requestClose (runDataProducerCloseTriggers
        [(DataProducerCloseTrigger.explicitClose, true), (DataProducerCloseTrigger.dropRef, true)]
        dataProducerNew).2 = 1) ∧
    consumerInnerCloseFlat true { consumerNew false false ⟨10, 10, [10]⟩ none with
      closed := true } = ({ consumerNew false false ⟨10, 10, [10]⟩ none with closed := true }, []) := by
  have h := c3_close_exactly_once
  refine ⟨⟨?_, ?_⟩, ⟨?_, ?_⟩, ?_⟩
  · exact (h.1 _ _ (by decide) (by decide) (by decide)).1
  · exact (h.1 _ _ (by decide) (by decide) (by decide)).2.1
  · exact (h.2.2.1 _ _ (by decide) (by decide) (by decide)).1
  · exact (h.2.2.1 _ _ (by decide) (by decide) (by decide)).2.1
  · exact h.2.1 true _ (by decide)

/-- C4: the claim states that a `dataproducerclose` notification makes the
DataConsumer transition to closed and fires its one-shot closed handler.  In
the source the `Notification::DataProducerClose` match arm is empty (only a
`TODO` comment), the DataConsumer carries no closed flag at all, and its
`closed` handlers fire only from the `Drop` impl: handling the notification
produces no state change and no events whatsoever. -/
theorem c4_dataproducerclose_ignored :
    dataConsumerHandleNotification (some DataConsumerNotification.dataProducerClose) = [] ∧
    dataConsumerDrop = [DataConsumerEvent.fireClosed, DataConsumerEvent.requestClose] :=
  ⟨rfl, rfl⟩

/-- C5: the close sequence of a Consumer and of a DataProducer first fires
the one-shot close handlers synchronously (the synchronous part of
`Inner::close` contains exactly the handler firing and no I/O event), then
spawns the asynchronous task, whose trace starts with the close request,
logs a failure exactly when the request fails (never propagating it), and
releases the strong transport reference as its last action, after the
request completes. -/
theorem c5_close_sequence_order :
    (∀ s : ConsumerState, s.closed = false → s.close_fired = false →
      consumerInnerClose s =
        ({ s with closed := true, close_fired := true }, [ConsumerEvent.fireClose], true)) ∧
    (∀ ok : Bool,
      (consumerCloseTask ok).head? = some ConsumerEvent.requestClose ∧
      (consumerCloseTask ok).getLast? = some ConsumerEvent.releaseTransport ∧
      evCount ConsumerEvent.requestClose (consumerCloseTask ok) = 1 ∧
      evCount ConsumerEvent.logCloseError (consumerCloseTask ok) = (if ok then 0 else 1) ∧
      evCount ConsumerEvent.fireClose (consumerCloseTask ok) = 0) ∧
    (∀ s : DataProducerState, s.closed = false → s.close_fired = false →
      dataProducerInnerClose s =
        ({ s with closed := true, close_fired := true }, [DataProducerEvent.fireClose], true)) ∧
    (∀ ok : Bool,
      (dataProducerCloseTask ok).head? = some DataProducerEvent.requestClose ∧
      (dataProducerCloseTask ok).getLast? = some DataProducerEvent.releaseTransport ∧
      evCount DataProducerEvent.requestClose (dataProducerCloseTask ok) = 1 ∧
      evCount DataProducerEvent.logCloseError (dataProducerCloseTask ok) = (if ok then 0 else 1) ∧
      evCount DataProducerEvent.fireClose (dataProducerCloseTask ok) = 0) := by
  refine ⟨?_, ?_, ?_, ?_⟩
  · intro s hc hf
    simp [consumerInnerClose, callCloseOnce, hc, hf]
  · intro ok
    cases ok <;> simp [consumerCloseTask, evCount]
  · intro s hc hf
    simp [dataProducerInnerClose, dpCallCloseOnce, hc, hf]
  · intro ok
    cases ok <;> simp [dataProducerCloseTask, evCount]

/-- Witness for C5: the close sequence of a freshly created Consumer and
DataProducer, with both request outcomes for the asynchronous task. -/
theorem c5_close_sequence_order_witness :
    consumerInnerClose (consumerNew false false ⟨10, 10, [10]⟩ none) =
      ({ consumerNew false false ⟨10, 10, [10]⟩ none with closed := true, close_fired := true },
        [ConsumerEvent.fireClose], true) ∧
    (consumerCloseTask false).getLast? = some ConsumerEvent.releaseTransport ∧
    dataProducerInnerClose dataProducerNew =
      ({ dataProducerNew with closed := true, close_fired := true },
        [DataProducerEvent.fireClose], true) ∧
    (dataProducerCloseTask true).head? = some DataProducerEvent.requestClose := by
  have h := c5_close_sequence_order
  exact ⟨h.1 _ (by decide) (by decide), (h.2.1 false).2.1, h.2.2.1 _ (by decide) (by decide),
    (h.2.2.2 true).1⟩

/-- C6 counterexample: after a fresh Consumer handles a `producerclose`
notification it is closed, yet a subsequent `pause()` call still issues a
`ConsumerPauseRequest` to the worker (the method performs no local closed
check), refuting the claim that later method calls return the
closed-channel/no-op behavior rather than issuing a request. -/
theorem c6_pause_after_close_counterexample :
    consumerClosed (consumerHandleNotification true (some ConsumerNotification.producerClose)
      (consumerNew false false ⟨10, 10, [10]⟩ none)).1 = true ∧
    evCount ConsumerEvent.requestPause
      (consumerPause true (consumerHandleNotification true
        (some ConsumerNotification.producerClose)
        (consumerNew false false ⟨10, 10, [10]⟩ none)).1).2.1 = 1 := by
  decide

/-- C6 amended: when a Consumer receives a `producerclose` notification for
its Producer, it fires the `producer-closed` one-shot handler, executes the
close sequence (one `close` firing, one close request) and `closed()` returns
`true`; however a later method call such as `pause()` still unconditionally
issues its request to the worker — the Consumer performs no local closed
check, so any failure comes back from the channel/worker, not from a local
no-op. -/
theorem c6_producerclose_then_pause (ok ok2 : Bool) (s : ConsumerState)
    (hc : s.closed = false) (hpf : s.producer_close_fired = false)
    (hcf : s.close_fired = false) :
    consumerClosed (consumerHandleNotification ok
      (some ConsumerNotification.producerClose) s).1 = true ∧
    evCount ConsumerEvent.fireProducerClose
      (consumerHandleNotification ok (some ConsumerNotification.producerClose) s).2 = 1 ∧
    evCount ConsumerEvent.fireClose
      (consumerHandleNotification ok (some ConsumerNotification.producerClose) s).2 = 1 ∧
    evCount ConsumerEvent.requestClose
      (consumerHandleNotification ok (some ConsumerNotification.producerClose) s).2 = 1 ∧
    evCount ConsumerEvent.requestPause
      (consumerPause ok2 (consumerHandleNotification ok
        (some ConsumerNotification.producerClose) s).1).2.1 = 1 := by
  cases ok <;> cases ok2 <;>
    simp [consumerHandleNotification, callProducerCloseOnce, consumerInnerCloseFlat,
      consumerInnerClose, callCloseOnce, consumerCloseTask, consumerPause, consumerClosed,
      hc, hpf, hcf, evCount, evCount_append] <;>
    split_ifs <;>
    simp [evCount]

/-- Witness for C6 amended: the amended claim at a fresh Consumer with a
successful close request and a successful pause request. -/
theorem c6_producerclose_then_pause_witness :
    consumerClosed (consumerHandleNotification true (some ConsumerNotification.producerClose)
      (consumerNew true false ⟨9, 8, [8]⟩ none)).1 = true ∧
    evCount ConsumerEvent.fireProducerClose
      (consumerHandleNotification true (some ConsumerNotification.producerClose)
        (consumerNew true false ⟨9, 8, [8]⟩ none)).2 = 1 :=
  ⟨(c6_producerclose_then_pause true true _ (by decide) (by decide) (by decide)).1,
   (c6_producerclose_then_pause true true _ (by decide) (by decide) (by decide)).2.1⟩

/-- C8: a notification body that fails to parse (the `serde_json` `Err` arm)
leaves the Consumer's cached state (paused, producer-paused, score, layers,
closed flag) and the WebRtcTransport's cached ICE/DTLS/SCTP state unchanged,
fires no handlers, closes nothing, and the handler returns normally (the arm
only logs); the same holds for the DataConsumer handler. -/
theorem c8_unparsable_notification_noop (ok : Bool) (s : ConsumerState)
    (w : WebRtcTransportCache) :
    consumerHandleNotification ok none s = (s, []) ∧
    webRtcTransportHandleNotification none w = (w, []) ∧
    dataConsumerHandleNotification none = [] :=
  ⟨rfl, rfl, rfl⟩

/-- C9: a score notification with value `sc` updates the Consumer's cached
score to exactly `sc` — so the `score()` getter then returns it — and the
multi-fire score bag is invoked exactly once, with that value, and nothing
else happens. -/
theorem c9_score_notification (ok : Bool) (s : ConsumerState) (sc : ConsumerScore) :
    consumerHandleNotification ok (some (ConsumerNotification.score sc)) s =
      ({ s with score := sc }, [ConsumerEvent.fireScore sc]) ∧
    consumerScoreValue (consumerHandleNotification ok
      (some (ConsumerNotification.score sc)) s).1 = sc := by
  constructor
  · rfl
  · rfl

/-- C10: `TransportListenIps` always holds at least one listen IP: `new`
builds a one-element list, `add` preserves non-emptiness, and the `TryFrom`
conversion fails with `EmptyListError` exactly on the empty vector and
otherwise returns the same list unchanged. -/
theorem c10_listen_ips_nonempty :
    (∀ ip : Nat, (TransportListenIps.new ip).ips = [ip]) ∧
    (∀ (s : TransportListenIps) (ip : Nat), s.ips ≠ [] → (s.add ip).ips ≠ []) ∧
    (∀ l : List Nat, l = [] → tryFromListenIps l = Except.error ()) ∧
    (∀ l : List Nat, l ≠ [] → tryFromListenIps l = Except.ok ⟨l⟩) := by
  refine ⟨fun ip => rfl, ?_, ?_, ?_⟩
  · intro s ip _
    simp [TransportListenIps.add]
  · intro l hl
    simp [tryFromListenIps, hl]
  · intro l hl
    simp [tryFromListenIps, hl]

/-- Witness for C10 at concrete inputs. -/
theorem c10_listen_ips_nonempty_witness :
    (TransportListenIps.new 7).ips = [7] ∧
    (TransportListenIps.add ⟨[7]⟩ 8).ips ≠ [] ∧
    tryFromListenIps [] = Except.error () ∧
    tryFromListenIps [7, 8] = Except.ok ⟨[7, 8]⟩ := by
  have h := c10_listen_ips_nonempty
  exact ⟨h.1 7, h.2.1 ⟨[7]⟩ 8 (by decide), h.2.2.1 [] rfl, h.2.2.2 [7, 8] (by decide)⟩

end Mediasoup
